import Mathlib

/-!
# Verification of the skislope elevation acquisition pipeline

A shallow embedding of the elevation acquisition and caching pipeline of the
skislope repository: `js/topography.js` (class `TopographyDataLoader`) and
`mcp_client.js` (class `MCPElevationClient`).

Modelling conventions:

* JavaScript numbers are modelled by `JSNum`: either a finite rational, one of
  the two infinities, or `nan`.  Rationals stand in for IEEE doubles; the
  claims under study are structural (lengths, bounds, cache contents, control
  flow), for which exact rational arithmetic is a faithful abstraction of the
  float computations.  Negative zero is not distinguished from zero; the
  embedded code never branches on it.
* The transcendental functions `Math.sin`, `Math.cos`, `Math.sqrt` are
  abstracted by a `MathModel` record of total functions `ℚ → ℚ` (the JS
  runtime's float approximations); `NaN` and infinity propagation for them is
  handled by the `JSNum` wrappers.  All theorems hold for every `MathModel`.
* `Math.random()` is modelled by a stream `noise : ℕ → ℚ` consumed one value
  per generated cell, in the cell order of the source loops; its contract
  (every value in `[0,1)`) appears as an explicit hypothesis where needed.
* The remote HTTP/JSON-RPC exchange performed by `bridgeToHttpServer` is
  modelled by an oracle value `GatewayResult` describing the observable
  outcome of the exchange, and the `get_resort_info` exchange of
  `handleResortInfo` by an oracle `InfoResult`.  A rejected promise is
  modelled by `Except.error`; JavaScript `null`/`undefined` results by
  `Option.none`.
* The `Map` used as cache is modelled by an insertion-ordered association
  list with `Map.set` semantics (`mapSet`): an existing key is updated in
  place, a new key is appended.
-/

deriving instance DecidableEq for Except

/-- A JavaScript number: NaN, +Infinity, -Infinity, or a finite value
(modelled exactly by a rational). -/
inductive JSNum where
  | nan
  | posInf
  | negInf
  | fin (q : ℚ)
deriving DecidableEq

/-- JS addition (`+`) on numbers, with IEEE special-value rules. -/
def jadd : JSNum → JSNum → JSNum
  | .nan, _ => .nan
  | _, .nan => .nan
  | .posInf, .negInf => .nan
  | .negInf, .posInf => .nan
  | .posInf, _ => .posInf
  | _, .posInf => .posInf
  | .negInf, _ => .negInf
  | _, .negInf => .negInf
  | .fin a, .fin b => .fin (a + b)

/-- JS subtraction (`-`) on numbers, with IEEE special-value rules. -/
def jsub : JSNum → JSNum → JSNum
  | .nan, _ => .nan
  | _, .nan => .nan
  | .posInf, .posInf => .nan
  | .negInf, .negInf => .nan
  | .posInf, _ => .posInf
  | .negInf, _ => .negInf
  | .fin _, .posInf => .negInf
  | .fin _, .negInf => .posInf
  | .fin a, .fin b => .fin (a - b)

/-- JS multiplication (`*`) on numbers, with IEEE special-value rules
(`±∞ * 0 = NaN`). -/
def jmul : JSNum → JSNum → JSNum
  | .nan, _ => .nan
  | _, .nan => .nan
  | .posInf, .posInf => .posInf
  | .posInf, .negInf => .negInf
  | .negInf, .posInf => .negInf
  | .negInf, .negInf => .posInf
  | .posInf, .fin b => if b = 0 then .nan else if 0 < b then .posInf else .negInf
  | .fin a, .posInf => if a = 0 then .nan else if 0 < a then .posInf else .negInf
  | .negInf, .fin b => if b = 0 then .nan else if 0 < b then .negInf else .posInf
  | .fin a, .negInf => if a = 0 then .nan else if 0 < a then .negInf else .posInf
  | .fin a, .fin b => .fin (a * b)

/-- JS division (`/`) on numbers: `0/0 = NaN`, `x/0 = ±∞` for `x ≠ 0`,
`x/±∞ = 0` (negative zero identified with zero). -/
def jdiv : JSNum → JSNum → JSNum
  | .nan, _ => .nan
  | _, .nan => .nan
  | .posInf, .posInf => .nan
  | .posInf, .negInf => .nan
  | .negInf, .posInf => .nan
  | .negInf, .negInf => .nan
  | .posInf, .fin b => if 0 ≤ b then .posInf else .negInf
  | .negInf, .fin b => if 0 ≤ b then .negInf else .posInf
  | .fin _, .posInf => .fin 0
  | .fin _, .negInf => .fin 0
  | .fin a, .fin b =>
      if b = 0 then (if a = 0 then .nan else if 0 < a then .posInf else .negInf)
      else .fin (a / b)

/-- `Math.min` on two numbers: NaN-propagating minimum. -/
def jmin : JSNum → JSNum → JSNum
  | .nan, _ => .nan
  | _, .nan => .nan
  | .negInf, _ => .negInf
  | _, .negInf => .negInf
  | .posInf, b => b
  | a, .posInf => a
  | .fin a, .fin b => .fin (min a b)

/-- `Math.max` on two numbers: NaN-propagating maximum. -/
def jmax : JSNum → JSNum → JSNum
  | .nan, _ => .nan
  | _, .nan => .nan
  | .posInf, _ => .posInf
  | _, .posInf => .posInf
  | .negInf, b => b
  | a, .negInf => a
  | .fin a, .fin b => .fin (max a b)

/-- The runtime's `Math.sin` / `Math.cos` / `Math.sqrt` on finite arguments,
abstracted as total rational functions. -/
structure MathModel where
  sin : ℚ → ℚ
  cos : ℚ → ℚ
  sqrt : ℚ → ℚ

/-- `Math.sqrt` lifted to `JSNum`: `sqrt` of a negative number or of `-∞`
is NaN, `sqrt(+∞) = +∞`. -/
def jsqrt (m : MathModel) : JSNum → JSNum
  | .nan => .nan
  | .posInf => .posInf
  | .negInf => .nan
  | .fin q => if q < 0 then .nan else .fin (m.sqrt q)

/-- `Math.sin` lifted to `JSNum`: NaN on NaN and on infinities. -/
def jsin (m : MathModel) : JSNum → JSNum
  | .fin q => .fin (m.sin q)
  | _ => .nan

/-- `Math.cos` lifted to `JSNum`: NaN on NaN and on infinities. -/
def jcos (m : MathModel) : JSNum → JSNum
  | .fin q => .fin (m.cos q)
  | _ => .nan

/-- Whether a stored sample is a finite number in the closed unit interval
`[0,1]` (the spec's notion of a valid normalized elevation sample; NaN and
infinities are not). -/
def isUnitSample : JSNum → Bool
  | .fin q => decide (0 ≤ q ∧ q ≤ 1)
  | _ => false

namespace MCPElevationClient

/-- `MCPElevationClient.normalizeElevationData` (mcp_client.js:460-486).
Empty (or absent) input returns `null`, modelled `none`; a flat input of
length `n` returns `n` copies of `0.5`; otherwise each sample maps to
`(sample - min) / (max - min)`.  `min`/`max` start from the first element
and fold over the rest, as in the source loop. -/
def normalizeElevationData (elevationData : List ℚ) : Option (List ℚ) :=
  match elevationData with
  | [] => none
  | e0 :: rest =>
      let minElevation := rest.foldl min e0
      let maxElevation := rest.foldl max e0
      let elevationRange := maxElevation - minElevation
      if elevationRange = 0 then
        some (List.replicate (e0 :: rest).length ((1 : ℚ)/2))
      else
        some ((e0 :: rest).map (fun e => (e - minElevation) / elevationRange))

end MCPElevationClient

namespace TopographyDataLoader

/-- `TopographyDataLoader.normalizeElevationData` (js/topography.js:201-224).
`min`/`max` start from `Infinity` / `-Infinity` and fold `Math.min` /
`Math.max` over all samples; on empty input the range is `-∞ - ∞ = -∞ ≠ 0`,
so the function returns an empty `Float32Array`, not a sentinel. -/
def normalizeElevationData (elevationData : List ℚ) : List JSNum :=
  let minElevation := (elevationData.map JSNum.fin).foldl jmin JSNum.posInf
  let maxElevation := (elevationData.map JSNum.fin).foldl jmax JSNum.negInf
  let elevationRange := jsub maxElevation minElevation
  if elevationRange = JSNum.fin 0 then
    List.replicate elevationData.length (JSNum.fin ((1 : ℚ)/2))
  else
    elevationData.map (fun e => jdiv (jsub (JSNum.fin e) minElevation) elevationRange)

end TopographyDataLoader

/-- The JSON payload parsed from `result.content[0].text` by
`bridgeToHttpServer`.  `elevation_data` is `none` when the field is absent or
null (falsy in the source's `elevationData?.elevation_data` check; an empty
array is truthy and is modelled as `some []`). -/
structure ElevPayload where
  elevation_data : Option (List ℚ)
  resort : Option String
  resolution : Option ℤ
  area_size : Option ℚ
  source : Option String
  request_id : Option String
deriving DecidableEq

/-- Observable outcome of the JSON-RPC POST issued by `bridgeToHttpServer`
(mcp_client.js:170-239): the transport rejected (`netError`), the HTTP status
was not ok (`httpNotOk`), the JSON-RPC envelope carried an `error` object
(`rpcError`), `result.content[0]` was missing (`noContent`), `JSON.parse` of
the content text threw (`parseError`), or a payload was parsed (`content`). -/
inductive GatewayResult where
  | netError
  | httpNotOk
  | rpcError (msg : String)
  | noContent
  | parseError
  | content (p : ElevPayload)
deriving DecidableEq

/-- Observable outcome of the `get_resort_info` JSON-RPC POST issued by
`handleResortInfo` (mcp_client.js:364-421): any throw before the content is
parsed (transport rejection, non-ok status, JSON-RPC error, parse failure)
is `failure`; `noContent` is a well-formed response without
`result.content[0]`; `info` carries the parsed resort metadata. -/
inductive InfoResult where
  | failure
  | noContent
  | info (base_elevation peak_elevation : ℚ)
deriving DecidableEq

/-- The `metadata` object built by `bridgeToHttpServer` on success. -/
structure ElevMetadata where
  resort : Option String
  resolution : Option ℤ
  area_size : Option ℚ
  source : Option String
  request_id : String
deriving DecidableEq

/-- The object returned by `bridgeToHttpServer` on success
(mcp_client.js:221-230).  The source constructs a field named
`elevationData`; it constructs no field named `elevation_data`, so the model
carries both spellings and the bridge always leaves `elevation_data` at
`none` — this records the raw shape of the JS object so that the
(snake-case) read performed by `fetchElevationData` can be modelled
faithfully. -/
structure ElevResult where
  elevationData : Option (List ℚ)
  elevation_data : Option (List ℚ)
  metadata : Option ElevMetadata
deriving DecidableEq

/-- JS `||` on an optional string with a default (empty string is falsy). -/
def jsOr (o : Option String) (d : String) : String :=
  match o with
  | some s => if s = "" then d else s
  | none => d

/-- Outcome of running a JS `try` block body: a returned value or a thrown
exception. -/
inductive JsOutcome (α : Type) where
  | ret (a : α)
  | thrown
deriving DecidableEq

namespace MCPElevationClient

/-- The body of the `try` block of `handleResortInfo`
(mcp_client.js:367-415).  On any failed exchange the body throws; with a
well-formed response whose content parses, it reaches
`this.generateSyntheticElevation(resortInfo)` — but `MCPElevationClient`
defines no method of that name anywhere in the repository, so the call
throws a `TypeError`. -/
def handleResortInfoTry (info : InfoResult) : JsOutcome (Option ElevResult) :=
  match info with
  | .failure => .thrown
  | .noContent => .ret none
  | .info _ _ => .thrown

/-- `MCPElevationClient.handleResortInfo` (mcp_client.js:364-421): the
`catch` converts every throw of the `try` body — including the `TypeError`
from the missing `generateSyntheticElevation` method — into `null`. -/
def handleResortInfo (info : InfoResult) : Option ElevResult :=
  match handleResortInfoTry info with
  | .ret r => r
  | .thrown => none

/-- `MCPElevationClient.bridgeToHttpServer` (mcp_client.js:145-253), as a
function of the exchange outcomes.  Returns the JS return value together
with the final value of the abort flag `this._progressAbort[requestId]`
(initialised to `false` at line 166 and set to `true` only at line 211,
which runs exactly when `result.content[0]` was parsed successfully).
Thrown errors (non-ok status, JSON-RPC error, transport or parse failure)
are caught at line 241 and fall back to `handleResortInfo`; a missing
`result.content[0]` returns `null` directly without that fallback. -/
def bridgeToHttpServer (requestId : String) (g : GatewayResult) (info : InfoResult) :
    Option ElevResult × Bool :=
  match g with
  | .netError => (handleResortInfo info, false)
  | .httpNotOk => (handleResortInfo info, false)
  | .rpcError _ => (handleResortInfo info, false)
  | .parseError => (handleResortInfo info, false)
  | .noContent => (none, false)
  | .content p =>
      match p.elevation_data with
      | some d =>
          (some { elevationData := some d
                , elevation_data := none
                , metadata := some { resort := p.resort
                                   , resolution := p.resolution
                                   , area_size := p.area_size
                                   , source := p.source
                                   , request_id := jsOr p.request_id requestId } }, true)
      | none => (none, true)

/-- `MCPElevationClient.fetchElevationData` (mcp_client.js:426-455).
`callTool` forwards to `bridgeToHttpServer` (which never throws: every
internal throw is caught there), then the source tests
`result?.elevation_data` — the snake-case field, which the bridge's success
object does not populate (it populates `elevationData`) — so the normalize
branch is unreachable and the function returns `null` whenever the bridge
returns an object.  The `resortKey`/`resolution`/`areaSize` arguments only
shape the outgoing request body, which the oracle already accounts for. -/
def fetchElevationData (requestId : String) (resortKey : String) (resolution : ℤ)
    (areaSize : ℚ) (g : GatewayResult) (info : InfoResult) : Option (List ℚ) :=
  match (bridgeToHttpServer requestId g info).1 with
  | some result =>
      match result.elevation_data with
      | some d => normalizeElevationData d
      | none => none
  | none => none

end MCPElevationClient

/-- One entry of `this.resortCoordinates` (js/topography.js:8-14). -/
structure Resort where
  lat : ℚ
  lon : ℚ
  name : String
deriving DecidableEq

/-- One entry of the `resortProfiles` table of
`generateSyntheticElevationData` (js/topography.js:233-239). -/
structure Profile where
  baseElevation : ℚ
  peakElevation : ℚ
  steepness : ℚ
deriving DecidableEq

/-- Lookup in an insertion-ordered association list (JS plain-object /
`Map` property read; `none` is `undefined`). -/
def lookupList {α β : Type} [DecidableEq α] (l : List (α × β)) (k : α) : Option β :=
  (l.find? (fun kv => decide (kv.1 = k))).map (fun kv => kv.2)

/-- JS `Map.prototype.set`: an existing key is updated in place (insertion
order preserved), a new key is appended at the end. -/
def mapSet {α β : Type} [DecidableEq α] (l : List (α × β)) (k : α) (v : β) :
    List (α × β) :=
  if l.any (fun kv => decide (kv.1 = k)) then
    l.map (fun kv => if kv.1 = k then (k, v) else kv)
  else
    l ++ [(k, v)]

namespace TopographyDataLoader

/-- `this.resortCoordinates` (js/topography.js:8-14): the five registered
resorts. -/
def resortCoordinates : List (String × Resort) :=
  [("chamonix", ⟨45.9237, 6.8694, "Chamonix, France"⟩),
   ("whistler", ⟨50.1163, -122.9574, "Whistler, Canada"⟩),
   ("zermatt", ⟨46.0207, 7.7491, "Zermatt, Switzerland"⟩),
   ("stanton", ⟨47.1333, 10.2667, "St. Anton, Austria"⟩),
   ("valdisere", ⟨45.4489, 6.9797, "Val d\x27Isère, France"⟩)]

/-- The `resortProfiles` table (js/topography.js:233-239). -/
def resortProfiles : List (String × Profile) :=
  [("chamonix", ⟨1035, 3842, 0.8⟩),
   ("whistler", ⟨652, 2182, 0.6⟩),
   ("zermatt", ⟨1608, 3883, 0.9⟩),
   ("stanton", ⟨1304, 2811, 0.85⟩),
   ("valdisere", ⟨1550, 3456, 0.7⟩)]

/-- The profile selection of `generateSyntheticElevationData`
(js/topography.js:241-242): find the key whose registry value is the given
resort object, look it up in `resortProfiles`, defaulting to the chamonix
profile.  Object identity on the registry values coincides with structural
equality, the five values being distinct. -/
def profileForResort (resort : Resort) : Profile :=
  match resortCoordinates.find? (fun kv => decide (kv.2 = resort)) with
  | some kv => (lookupList resortProfiles kv.1).getD ⟨1035, 3842, 0.8⟩
  | none => ⟨1035, 3842, 0.8⟩

/-- One cell of the synthetic grid: the body of the inner loop of
`generateSyntheticElevationData` (js/topography.js:245-263), at grid
coordinates `(x, z)`.  Note that for `resolution = 1` the source computes
`x / (resolution - 1) = 0 / 0 = NaN`, which propagates through every
subsequent operation including the final clamp. -/
def syntheticCell (m : MathModel) (noise : ℕ → ℚ) (p : Profile) (resolution : ℤ)
    (z x : ℕ) : JSNum :=
  let nx := jsub (jmul (jdiv (.fin (x : ℚ)) (.fin ((resolution : ℚ) - 1))) (.fin 2)) (.fin 1)
  let nz := jsub (jmul (jdiv (.fin (z : ℚ)) (.fin ((resolution : ℚ) - 1))) (.fin 2)) (.fin 1)
  let distanceFromCenter := jsqrt m (jadd (jmul nx nx) (jmul nz nz))
  let height0 := jmax (.fin 0) (jsub (.fin 1) (jmul distanceFromCenter (.fin p.steepness)))
  let height1 := jadd height0
    (jmul (jmul (jsin m (jmul nx (.fin 3))) (jcos m (jmul nz (.fin 3)))) (.fin (1/10)))
  let height2 := jadd height1
    (.fin (noise (z * resolution.toNat + x) * (1/10) - 1/20))
  jmax (.fin 0) (jmin (.fin 1) height2)

/-- `TopographyDataLoader.generateSyntheticElevationData`
(js/topography.js:227-267).  A `Float32Array(resolution * resolution)` is
allocated zero-initialised and the two nested loops fill index
`z * resolution + x` for `0 ≤ z, x < resolution` in row-major order; for
`resolution ≤ 0` the loops run zero times and the zero array is returned.
The `areaSize` parameter is accepted and never used, exactly as in the
source. -/
def generateSyntheticElevationData (m : MathModel) (noise : ℕ → ℚ) (resort : Resort)
    (resolution : ℤ) (areaSize : ℚ) : List JSNum :=
  let profile := profileForResort resort
  if resolution ≤ 0 then
    List.replicate ((resolution * resolution).toNat) (.fin 0)
  else
    (List.range resolution.toNat).flatMap (fun z =>
      (List.range resolution.toNat).map (fun x =>
        syntheticCell m noise profile resolution z x))

/-- The mutable state of a `TopographyDataLoader`: its elevation cache.  The
cache key `` `${resortKey}_${resolution}_${areaSize}` `` is modelled by the
triple of its components (the string encoding is injective in them). -/
structure TopoState where
  cache : List ((String × ℤ × ℚ) × List JSNum)
deriving DecidableEq

/-- `TopographyDataLoader.fetchElevationData` (js/topography.js:40-81) as a
state-passing function.  The cache is consulted first; an unknown resort key
then throws (`Except.error`, a rejected promise); otherwise the MCP client
path runs (it never throws, see `MCPElevationClient.fetchElevationData`) and
a truthy result is cached and returned, else the synthetic fallback grid is
generated, cached and returned. -/
def fetchElevationData (m : MathModel) (noise : ℕ → ℚ) (requestId : String)
    (st : TopoState) (resortKey : String) (resolution : ℤ) (areaSize : ℚ)
    (g : GatewayResult) (info : InfoResult) :
    Except String (List JSNum × TopoState) :=
  let cacheKey := (resortKey, resolution, areaSize)
  match lookupList st.cache cacheKey with
  | some cached => .ok (cached, st)
  | none =>
      match lookupList resortCoordinates resortKey with
      | none => .error ("Unknown resort: " ++ resortKey)
      | some resort =>
          match MCPElevationClient.fetchElevationData requestId resortKey resolution
              areaSize g info with
          | some realElevationData =>
              let grid := realElevationData.map JSNum.fin
              .ok (grid, ⟨mapSet st.cache cacheKey grid⟩)
          | none =>
              let grid := generateSyntheticElevationData m noise resort resolution areaSize
              .ok (grid, ⟨mapSet st.cache cacheKey grid⟩)

end TopographyDataLoader

/-- Observable outcome of one status query
`fetch('http://localhost:8081/progress/' + requestId)` inside `pollProgress`
(mcp_client.js:271-300): an ok response carrying a `progress` percentage, a
non-ok status, or a rejected fetch. -/
inductive PollResp where
  | ok (progress : ℚ)
  | notOk
  | err
deriving DecidableEq

namespace MCPElevationClient

/-- `maxPolls` of `pollProgress` (mcp_client.js:259). -/
def maxPolls : ℕ := 600

/-- The iteration structure of `pollProgress` (mcp_client.js:255-315) for one
`requestId`.  Iteration `i` of the self-rescheduling `poll` callback:

* first reads the shared abort flag (`pre i`) and, when it is set, resolves
  without issuing a status query;
* otherwise issues the status query (the iteration index is appended to the
  returned trace), awaits its outcome `resp i`, and — in every outcome
  branch — reschedules itself only while `pollCount < maxPolls` and a second
  read of the abort flag (`post i`, the flag may have been set concurrently
  during the awaited query) is still clear; the ok branch additionally
  requires the reported progress to be below 100.

The two flag reads per iteration are separate functions because the flag is
shared mutable state that the cooperative scheduler may flip at the awaited
suspension point between them.  `fuel` starts at `maxPolls + 1`, an upper
bound on the number of iterations the `pollCount` budget admits, so the
fuel never runs out on a reachable argument.  The returned list is the trace
of iterations that issued a status query. -/
def pollLoop (pre post : ℕ → Bool) (resp : ℕ → PollResp) :
    ℕ → ℕ → ℕ → List ℕ
  | 0, _, _ => []
  | fuel + 1, pollCount, i =>
      if pre i then []
      else
        i :: (match resp i with
          | .ok p =>
              if p < 100 ∧ pollCount < maxPolls ∧ post i = false then
                pollLoop pre post resp fuel (pollCount + 1) (i + 1)
              else []
          | .notOk =>
              if pollCount < maxPolls ∧ post i = false then
                pollLoop pre post resp fuel (pollCount + 1) (i + 1)
              else []
          | .err =>
              if pollCount < maxPolls ∧ post i = false then
                pollLoop pre post resp fuel (pollCount + 1) (i + 1)
              else [])

/-- The trace of status queries issued by one `pollProgress` run
(mcp_client.js:255-315), starting with `pollCount = 0`. -/
def pollProgress (pre post : ℕ → Bool) (resp : ℕ → PollResp) : List ℕ :=
  pollLoop pre post resp (maxPolls + 1) 0 0

/-- `this._progressAbort[requestId] = true` (mcp_client.js:211): set the
abort flag of one request id in the flag table. -/
def setAbort (t : String → Bool) (requestId : String) : String → Bool :=
  fun k => if k = requestId then true else t k

end MCPElevationClient

/-! ## Concrete environment instances, used to evaluate the pipeline on
explicit inputs in witnesses and counterexamples -/

/-- A concrete `MathModel` (every theorem below holds for all models). -/
def mZero : MathModel := ⟨fun _ => 0, fun _ => 0, fun _ => 0⟩

/-- The constant-zero `Math.random` stream. -/
def noiseZero : ℕ → ℚ := fun _ => 0

/-- The constant-one-half `Math.random` stream. -/
def noiseHalf : ℕ → ℚ := fun _ => 1/2

/-- An always-clear abort flag reading. -/
def flagClear : ℕ → Bool := fun _ => false

/-- An abort flag reading that is set from iteration 2 on. -/
def flagFromTwo : ℕ → Bool := fun i => decide (2 ≤ i)

/-- Status-query outcomes: 50% progress twice, then 100%. -/
def respRising : ℕ → PollResp := fun i => if i < 2 then .ok 50 else .ok 100

/-- Status-query outcomes: always a non-ok status. -/
def respNotOk : ℕ → PollResp := fun _ => .notOk

/-- A successful gateway payload carrying the three-sample grid
`[1000, 1500, 2000]`. -/
def payloadThree : ElevPayload :=
  ⟨some [1000, 1500, 2000], some "chamonix", some 128, some 2000,
   some "Open Topo Data API", some "req"⟩

/-- The final `Math.max(0, Math.min(1, height))` of the generator loop, on a
finite value. -/
def clamp01 (q : ℚ) : ℚ := max 0 (min 1 q)

/-- The deterministic part of a synthetic cell: everything the source
computes for cell `(x, z)` except the `Math.random()` perturbation and the
final clamp.  A function of the math model, the profile, the resolution and
the cell coordinates only. -/
def cellCore (m : MathModel) (p : Profile) (resolution : ℤ) (z x : ℕ) : ℚ :=
  let nx : ℚ := (x : ℚ) / ((resolution : ℚ) - 1) * 2 - 1
  let nz : ℚ := (z : ℚ) / ((resolution : ℚ) - 1) * 2 - 1
  max 0 (1 - m.sqrt (nx * nx + nz * nz) * p.steepness)
    + m.sin (nx * 3) * m.cos (nz * 3) * (1/10)

/-- Run a sequence of orchestrator fetches (concrete environment: remote
grid fetch and metadata fetch both failing), threading the loader state
through, as a long-running session would. -/
def insertKeys (st : TopographyDataLoader.TopoState) :
    List (String × ℤ × ℚ) → TopographyDataLoader.TopoState
  | [] => st
  | (k, r, a) :: rest =>
      match TopographyDataLoader.fetchElevationData mZero noiseZero "req" st k r a
          .netError .failure with
      | .ok (_, st2) => insertKeys st2 rest
      | .error _ => insertKeys st rest

/-- Eleven distinct cache keys (same resort and resolution, eleven distinct
area sizes): one more than the capacity of 10 entries that the design
mandates for the cache. -/
def elevenKeys : List (String × ℤ × ℚ) :=
  [("chamonix", 2, 1), ("chamonix", 2, 2), ("chamonix", 2, 3), ("chamonix", 2, 4),
   ("chamonix", 2, 5), ("chamonix", 2, 6), ("chamonix", 2, 7), ("chamonix", 2, 8),
   ("chamonix", 2, 9), ("chamonix", 2, 10), ("chamonix", 2, 11)]

/-- The registry entry for the chamonix location. -/
def chamonixResort : Resort := ⟨45.9237, 6.8694, "Chamonix, France"⟩

/-- An always-false abort-flag table (no tracker has been aborted). -/
def flagTableClear : String → Bool := fun _ => false

/-! ## Helper lemmas -/

/-- Every `handleResortInfo` outcome is `null`: a failed exchange is caught,
and a successful one reaches the call of the nonexistent method
`generateSyntheticElevation`, whose `TypeError` is caught as well. -/
theorem handleResortInfo_eq_none (info : InfoResult) :
    MCPElevationClient.handleResortInfo info = none := by
  cases info <;> rfl

/-- The client-side `fetchElevationData` returns `null` for every exchange
outcome: failures fall back to `handleResortInfo` (always `null`), a missing
or empty content returns `null`, and a successful bridge result stores the
grid under `elevationData` while the caller reads `elevation_data`. -/
theorem mcp_fetchElevationData_eq_none (requestId resortKey : String)
    (resolution : ℤ) (areaSize : ℚ) (g : GatewayResult) (info : InfoResult) :
    MCPElevationClient.fetchElevationData requestId resortKey resolution areaSize
      g info = none := by
  cases g with
  | netError =>
      simp [MCPElevationClient.fetchElevationData, MCPElevationClient.bridgeToHttpServer,
        handleResortInfo_eq_none]
  | httpNotOk =>
      simp [MCPElevationClient.fetchElevationData, MCPElevationClient.bridgeToHttpServer,
        handleResortInfo_eq_none]
  | rpcError msg =>
      simp [MCPElevationClient.fetchElevationData, MCPElevationClient.bridgeToHttpServer,
        handleResortInfo_eq_none]
  | noContent => rfl
  | parseError =>
      simp [MCPElevationClient.fetchElevationData, MCPElevationClient.bridgeToHttpServer,
        handleResortInfo_eq_none]
  | content p =>
      cases hp : p.elevation_data with
      | none =>
          simp [MCPElevationClient.fetchElevationData,
            MCPElevationClient.bridgeToHttpServer, hp]
      | some d =>
          simp [MCPElevationClient.fetchElevationData,
            MCPElevationClient.bridgeToHttpServer, hp]

theorem find?_map_update {α β : Type} [DecidableEq α] (l : List (α × β)) (k : α) (v : β) :
    (l.map (fun kv => if kv.1 = k then (k, v) else kv)).find?
        (fun kv => decide (kv.1 = k)) =
      if l.any (fun kv => decide (kv.1 = k)) then some (k, v) else none := by
  induction l with
  | nil => rfl
  | cons kv t ih =>
      by_cases hk : kv.1 = k
      · simp [List.find?_cons, hk]
      · have hd : (decide (kv.1 = k)) = false := decide_eq_false hk
        simp only [List.map_cons, if_neg hk, List.find?_cons, hd, List.any_cons,
          Bool.false_or, ih]

/-- After `cache.set(k, v)`, `cache.get(k)` returns `v`. -/
theorem lookupList_mapSet_self {α β : Type} [DecidableEq α]
    (l : List (α × β)) (k : α) (v : β) :
    lookupList (mapSet l k v) k = some v := by
  by_cases h : l.any (fun kv => decide (kv.1 = k))
  · unfold lookupList mapSet
    rw [if_pos h, find?_map_update l k v, if_pos h]
    rfl
  · have h' : l.any (fun kv => decide (kv.1 = k)) = false := by
      cases hx : l.any (fun kv => decide (kv.1 = k))
      · rfl
      · exact absurd hx h
    have hnone : l.find? (fun kv => decide (kv.1 = k)) = none :=
      List.find?_eq_none.mpr (List.any_eq_false.mp h')
    unfold lookupList mapSet
    rw [if_neg h, List.find?_append, hnone]
    simp

/-- For `resolution ≠ 1` (nonzero denominator `resolution - 1`) every
intermediate of the cell computation is finite, and the cell reduces to the
clamp of its deterministic part plus the noise perturbation. -/
theorem syntheticCell_eq (m : MathModel) (noise : ℕ → ℚ) (p : Profile)
    (resolution : ℤ) (z x : ℕ) (h : ((resolution : ℚ) - 1) ≠ 0) :
    TopographyDataLoader.syntheticCell m noise p resolution z x =
      .fin (clamp01 (cellCore m p resolution z x +
        (noise (z * resolution.toNat + x) * (1/10) - 1/20))) := by
  have hsq : ∀ a b : ℚ, ¬(a * a + b * b < 0) := fun a b =>
    not_lt.mpr (add_nonneg (mul_self_nonneg a) (mul_self_nonneg b))
  unfold TopographyDataLoader.syntheticCell cellCore clamp01
  simp only [jdiv, jmul, jsub, jadd, jsqrt, jsin, jcos, jmax, jmin, if_neg h,
    if_neg (hsq _ _)]

theorem clamp01_nonneg (q : ℚ) : 0 ≤ clamp01 q := le_max_left 0 _

theorem clamp01_le_one (q : ℚ) : clamp01 q ≤ 1 :=
  max_le (by norm_num) (min_le_left 1 q)

/-- The clamp is 1-Lipschitz: clamping two heights moves them no further
apart. -/
theorem clamp01_lipschitz (a b : ℚ) : |clamp01 a - clamp01 b| ≤ |a - b| := by
  unfold clamp01
  calc |max 0 (min 1 a) - max 0 (min 1 b)|
      = |max (min 1 a) 0 - max (min 1 b) 0| := by rw [max_comm 0, max_comm 0]
    _ ≤ |min 1 a - min 1 b| := abs_max_sub_max_le_abs _ _ _
    _ ≤ max |1 - 1| |a - b| := abs_min_sub_min_le_max 1 a 1 b
    _ = |a - b| := by simp

theorem res_sub_one_ne_zero {resolution : ℤ} (h : 2 ≤ resolution) :
    ((resolution : ℚ) - 1) ≠ 0 := by
  have h2 : (2 : ℚ) ≤ (resolution : ℚ) := by exact_mod_cast h
  intro hc
  rw [sub_eq_zero] at hc
  rw [hc] at h2
  norm_num at h2

/-- For resolution at least 2, every synthetic cell is a finite sample in
`[0,1]`. -/
theorem syntheticCell_unit (m : MathModel) (noise : ℕ → ℚ) (p : Profile)
    (resolution : ℤ) (z x : ℕ) (h2 : 2 ≤ resolution) :
    isUnitSample (TopographyDataLoader.syntheticCell m noise p resolution z x) = true := by
  rw [syntheticCell_eq m noise p resolution z x (res_sub_one_ne_zero h2)]
  simp only [isUnitSample, decide_eq_true_eq]
  exact ⟨clamp01_nonneg _, clamp01_le_one _⟩

/-- The synthetic grid always has exactly `resolution * resolution` samples
(also for nonpositive resolutions, where the zero-initialised array is
returned untouched). -/
theorem generate_length (m : MathModel) (noise : ℕ → ℚ) (resort : Resort)
    (resolution : ℤ) (areaSize : ℚ) :
    (TopographyDataLoader.generateSyntheticElevationData m noise resort resolution
      areaSize).length = (resolution * resolution).toNat := by
  unfold TopographyDataLoader.generateSyntheticElevationData
  by_cases h : resolution ≤ 0
  · simp [h]
  · rw [if_neg h, List.length_flatMap]
    have hres : (resolution * resolution).toNat = resolution.toNat * resolution.toNat := by
      obtain ⟨n, rfl⟩ : ∃ n : ℕ, resolution = (n : ℤ) := ⟨resolution.toNat, by omega⟩
      rw [show ((n : ℤ) * (n : ℤ)) = ((n * n : ℕ) : ℤ) by push_cast; ring,
        Int.toNat_natCast, Int.toNat_natCast]
    rw [hres]
    simp [Function.comp_def, List.map_const, List.sum_replicate, smul_eq_mul]

/-- For resolution at least 2, every sample of the synthetic grid is a
finite value in `[0,1]`. -/
theorem generate_all_unit (m : MathModel) (noise : ℕ → ℚ) (resort : Resort)
    (resolution : ℤ) (areaSize : ℚ) (h2 : 2 ≤ resolution) :
    (TopographyDataLoader.generateSyntheticElevationData m noise resort resolution
      areaSize).all isUnitSample = true := by
  rw [List.all_eq_true]
  intro c hc
  unfold TopographyDataLoader.generateSyntheticElevationData at hc
  rw [if_neg (by omega : ¬resolution ≤ 0)] at hc
  rcases List.mem_flatMap.mp hc with ⟨zz, hz, hcm⟩
  rcases List.mem_map.mp hcm with ⟨xx, hx, rfl⟩
  exact syntheticCell_unit m noise _ resolution zz xx h2

theorem mem_of_mem_ite_nil {α : Type} {j : α} (C : Prop) [Decidable C] (L : List α)
    (hj : j ∈ (if C then L else [])) : j ∈ L := by
  split at hj
  · exact hj
  · simp at hj

/-- Every status query the poll loop issues was preceded by a clear reading
of the abort flag: iteration `j` queries only if `pre j` read `false`. -/
theorem pollLoop_pre_false (pre post : ℕ → Bool) (resp : ℕ → PollResp) :
    ∀ (fuel pollCount i j : ℕ),
      j ∈ MCPElevationClient.pollLoop pre post resp fuel pollCount i →
      pre j = false := by
  intro fuel
  induction fuel with
  | zero =>
      intro pollCount i j h
      simp [MCPElevationClient.pollLoop] at h
  | succ fuel ih =>
      intro pollCount i j h
      rw [MCPElevationClient.pollLoop] at h
      by_cases hp : pre i = true
      · rw [if_pos hp] at h
        simp at h
      · rw [if_neg hp] at h
        rcases List.mem_cons.mp h with rfl | htail
        · exact Bool.eq_false_iff.mpr hp
        · cases hr : resp i <;> rw [hr] at htail <;>
            exact ih _ _ _ (mem_of_mem_ite_nil _ _ htail)

/-- Once the abort flag reads set from iteration `k` on, no query with index
`k` or later is ever issued. -/
theorem pollProgress_abort_stops (pre post : ℕ → Bool) (resp : ℕ → PollResp)
    (k : ℕ) (hk : ∀ j, k ≤ j → pre j = true) :
    ∀ j ∈ MCPElevationClient.pollProgress pre post resp, j < k := by
  intro j hj
  by_contra hjk
  have := pollLoop_pre_false pre post resp _ _ _ _ hj
  rw [hk j (le_of_not_lt hjk)] at this
  exact absurd this (by simp)

theorem forall2_map {α β : Type} (R : β → β → Prop) (l : List α) (f g : α → β)
    (h : ∀ a ∈ l, R (f a) (g a)) : List.Forall₂ R (l.map f) (l.map g) := by
  induction l with
  | nil => simp
  | cons a t ih =>
      simp only [List.map_cons, List.forall₂_cons]
      exact ⟨h a (by simp), ih (fun b hb => h b (by simp [hb]))⟩

theorem forall2_flatMap {α β : Type} (R : β → β → Prop) (l : List α) (f g : α → List β)
    (h : ∀ a ∈ l, List.Forall₂ R (f a) (g a)) :
    List.Forall₂ R (l.flatMap f) (l.flatMap g) := by
  induction l with
  | nil => simp
  | cons a t ih =>
      simp only [List.flatMap_cons]
      exact List.rel_append (h a (by simp)) (ih fun b hb => h b (by simp [hb]))

/-- Two runs of the same cell computation that differ only in the
`Math.random()` stream produce finite samples at most `0.1` apart (the noise
term is `r * 0.1 - 0.05` with `r ∈ [0,1)`, and the clamp is 1-Lipschitz):
the deterministic radial/directional macro-structure is common to both. -/
theorem syntheticCell_close (m : MathModel) (p : Profile) (resolution : ℤ)
    (z x : ℕ) (noise1 noise2 : ℕ → ℚ) (h2 : 2 ≤ resolution)
    (hb1 : ∀ n, 0 ≤ noise1 n ∧ noise1 n < 1)
    (hb2 : ∀ n, 0 ≤ noise2 n ∧ noise2 n < 1) :
    ∃ q1 q2, TopographyDataLoader.syntheticCell m noise1 p resolution z x = .fin q1 ∧
      TopographyDataLoader.syntheticCell m noise2 p resolution z x = .fin q2 ∧
      |q1 - q2| ≤ 1/10 := by
  rw [syntheticCell_eq m noise1 p resolution z x (res_sub_one_ne_zero h2),
    syntheticCell_eq m noise2 p resolution z x (res_sub_one_ne_zero h2)]
  refine ⟨_, _, rfl, rfl, ?_⟩
  have hnd : |noise1 (z * resolution.toNat + x) - noise2 (z * resolution.toNat + x)| ≤ 1 := by
    rcases hb1 (z * resolution.toNat + x) with ⟨h10, h11⟩
    rcases hb2 (z * resolution.toNat + x) with ⟨h20, h21⟩
    rw [abs_le]
    constructor <;> linarith
  calc |clamp01 (cellCore m p resolution z x +
          (noise1 (z * resolution.toNat + x) * (1/10) - 1/20)) -
        clamp01 (cellCore m p resolution z x +
          (noise2 (z * resolution.toNat + x) * (1/10) - 1/20))|
      ≤ |(cellCore m p resolution z x +
          (noise1 (z * resolution.toNat + x) * (1/10) - 1/20)) -
         (cellCore m p resolution z x +
          (noise2 (z * resolution.toNat + x) * (1/10) - 1/20))| :=
        clamp01_lipschitz _ _
    _ = |(noise1 (z * resolution.toNat + x) - noise2 (z * resolution.toNat + x)) * (1/10)| := by
        ring_nf
    _ = |noise1 (z * resolution.toNat + x) - noise2 (z * resolution.toNat + x)| * (1/10) := by
        rw [abs_mul]
        norm_num
    _ ≤ 1 * (1/10) := by
        apply mul_le_mul_of_nonneg_right hnd
        norm_num
    _ = 1/10 := by norm_num

/-- If the cell at resolution 1 is computed, the division `0 / (1 - 1)` is
`0 / 0 = NaN`, which propagates through the whole cell computation including
the final clamp. -/
theorem syntheticCell_res_one (m : MathModel) (noise : ℕ → ℚ) (p : Profile) :
    TopographyDataLoader.syntheticCell m noise p 1 0 0 = .nan := by
  unfold TopographyDataLoader.syntheticCell
  norm_num [jdiv, jmul, jsub, jadd, jsqrt, jsin, jcos, jmax, jmin]

/-- Whenever a fetch resolves to a grid, the resulting loader state maps the
request's cache key to exactly that grid (both on a cache hit and after
either miss path stores its result). -/
theorem fetch_ok_cached (m : MathModel) (noise : ℕ → ℚ) (requestId : String)
    (st : TopographyDataLoader.TopoState) (resortKey : String) (resolution : ℤ)
    (areaSize : ℚ) (g : GatewayResult) (info : InfoResult)
    (grid : List JSNum) (st2 : TopographyDataLoader.TopoState)
    (h : TopographyDataLoader.fetchElevationData m noise requestId st resortKey
        resolution areaSize g info = .ok (grid, st2)) :
    lookupList st2.cache (resortKey, resolution, areaSize) = some grid := by
  simp only [TopographyDataLoader.fetchElevationData] at h
  cases hc : lookupList st.cache (resortKey, resolution, areaSize) with
  | some cached =>
      rw [hc] at h
      simp only [Except.ok.injEq, Prod.mk.injEq] at h
      obtain ⟨rfl, rfl⟩ := h
      exact hc
  | none =>
      rw [hc] at h
      cases hr : lookupList TopographyDataLoader.resortCoordinates resortKey with
      | none => rw [hr] at h; exact absurd h (by simp)
      | some resort =>
          rw [hr, mcp_fetchElevationData_eq_none] at h
          simp only [Except.ok.injEq, Prod.mk.injEq] at h
          obtain ⟨rfl, rfl⟩ := h
          exact lookupList_mapSet_self _ _ _

/-! ## Claim theorems -/

/-- C2: the claim says a successful remote JSON-RPC elevation fetch makes
the client return the normalized remote grid to the orchestrator, which
caches and returns it.  The code violates this: `bridgeToHttpServer`
returns the samples under the field `elevationData` (first conjunct, with
the abort flag duly set — second conjunct), but `fetchElevationData` reads
the field `elevation_data`, which is absent, so it returns `null` (third
conjunct), and the orchestrator behaves exactly as if the remote fetch had
failed, falling back to local synthesis (fourth conjunct). -/
theorem claim_C2_remote_grid_dropped :
    ((MCPElevationClient.bridgeToHttpServer "req" (.content payloadThree) .failure).1 =
      some { elevationData := some [1000, 1500, 2000], elevation_data := none,
             metadata := some ⟨some "chamonix", some 128, some 2000,
               some "Open Topo Data API", "req"⟩ }) ∧
    ((MCPElevationClient.bridgeToHttpServer "req" (.content payloadThree) .failure).2 = true) ∧
    (MCPElevationClient.fetchElevationData "req" "chamonix" 128 2000
        (.content payloadThree) .failure = none) ∧
    (TopographyDataLoader.fetchElevationData mZero noiseZero "req" ⟨[]⟩ "chamonix" 2 2000
        (.content payloadThree) .failure =
      TopographyDataLoader.fetchElevationData mZero noiseZero "req" ⟨[]⟩ "chamonix" 2 2000
        .netError .failure) :=
  ⟨rfl, rfl, rfl, rfl⟩

/-- C3: the claim says every invalid input resolves to `null` immediately,
without throwing and without cache interaction.  The code violates all
three parts: an unknown location key makes the returned promise reject with
an `Error` (first conjunct); an out-of-range resolution and area size are
not validated at all — `fetch('chamonix', -1, 0)` resolves to a one-sample
grid, which is even cached (second conjunct); and the cache is consulted
before any validation, so an invalid key short-circuits through a matching
cache entry (third conjunct). -/
theorem claim_C3_invalid_input :
    (TopographyDataLoader.fetchElevationData mZero noiseZero "req" ⟨[]⟩
        "unknown_location" 64 2000 .netError .failure =
      .error "Unknown resort: unknown_location") ∧
    (TopographyDataLoader.fetchElevationData mZero noiseZero "req" ⟨[]⟩
        "chamonix" (-1) 0 .netError .failure =
      .ok ([.fin 0], ⟨[(("chamonix", -1, 0), [.fin 0])]⟩)) ∧
    (TopographyDataLoader.fetchElevationData mZero noiseZero "req"
        ⟨[(("unknown_location", 64, 2000), [.fin 1])]⟩
        "unknown_location" 64 2000 .netError .failure =
      .ok ([.fin 1], ⟨[(("unknown_location", 64, 2000), [.fin 1])]⟩)) :=
  ⟨rfl, rfl, rfl⟩

/-- C4: the claim says that when the grid fetch fails but `get_resort_info`
succeeds, a synthetic grid parameterized by the returned elevation profile
is derived, returned and cached.  The code violates this: the `try` body of
`handleResortInfo` reaches `this.generateSyntheticElevation(resortInfo)`, a
method `MCPElevationClient` does not define, so it throws (first conjunct)
and the `catch` yields `null` (second conjunct); the bridge therefore
returns `null` on the failure-plus-metadata path (third conjunct), and the
orchestrator behaves exactly as if the metadata fetch had failed too,
falling back to the local registry profile (fourth conjunct). -/
theorem claim_C4_metadata_fallback_broken :
    (MCPElevationClient.handleResortInfoTry (.info 1035 3842) = .thrown) ∧
    (MCPElevationClient.handleResortInfo (.info 1035 3842) = none) ∧
    ((MCPElevationClient.bridgeToHttpServer "req" .httpNotOk (.info 1035 3842)).1 = none) ∧
    (TopographyDataLoader.fetchElevationData mZero noiseZero "req" ⟨[]⟩ "chamonix" 2 2000
        .httpNotOk (.info 1035 3842) =
      TopographyDataLoader.fetchElevationData mZero noiseZero "req" ⟨[]⟩ "chamonix" 2 2000
        .netError .failure) :=
  ⟨rfl, rfl, rfl, rfl⟩

/-- C5: a second fetch with the same `(locationKey, resolution,
areaSizeMeters)` after a fetch that resolved to `(grid, state)` returns the
same grid and leaves the state unchanged, for every remote-exchange outcome
of the second call (in particular when the remote source fails), every
noise stream, math model and request id: the cache hit short-circuits the
whole chain.  This covers both remote-derived and fallback-synthesized
entries, since any `ok` first call stores its grid under the key. -/
theorem claim_C5_cache_hit (m m2 : MathModel) (noise noise2 : ℕ → ℚ)
    (requestId requestId2 : String) (st : TopographyDataLoader.TopoState)
    (resortKey : String) (resolution : ℤ) (areaSize : ℚ)
    (g g2 : GatewayResult) (info info2 : InfoResult)
    (grid : List JSNum) (st2 : TopographyDataLoader.TopoState)
    (h : TopographyDataLoader.fetchElevationData m noise requestId st resortKey
        resolution areaSize g info = .ok (grid, st2)) :
    TopographyDataLoader.fetchElevationData m2 noise2 requestId2 st2 resortKey
        resolution areaSize g2 info2 = .ok (grid, st2) := by
  have hkey := fetch_ok_cached m noise requestId st resortKey resolution areaSize
    g info grid st2 h
  simp only [TopographyDataLoader.fetchElevationData]
  rw [hkey]

/-- Witness for C5 at a concrete input: a first fetch for
`(chamonix, 2, 2000)` with the remote source failing resolves to the
synthetic grid and caches it; a second call on the resulting state — with a
different math model surrogate not needed, a different noise stream, a
different request id and a different (also failing) remote outcome —
returns the identical grid and state. -/
theorem claim_C5_witness :
    (TopographyDataLoader.fetchElevationData mZero noiseZero "req" ⟨[]⟩ "chamonix" 2 2000
        .netError .failure =
      .ok (TopographyDataLoader.generateSyntheticElevationData mZero noiseZero
            chamonixResort 2 2000,
          ⟨[(("chamonix", 2, 2000),
            TopographyDataLoader.generateSyntheticElevationData mZero noiseZero
              chamonixResort 2 2000)]⟩)) ∧
    (TopographyDataLoader.fetchElevationData mZero noiseHalf "req2"
        ⟨[(("chamonix", 2, 2000),
          TopographyDataLoader.generateSyntheticElevationData mZero noiseZero
            chamonixResort 2 2000)]⟩ "chamonix" 2 2000 .httpNotOk .noContent =
      .ok (TopographyDataLoader.generateSyntheticElevationData mZero noiseZero
            chamonixResort 2 2000,
          ⟨[(("chamonix", 2, 2000),
            TopographyDataLoader.generateSyntheticElevationData mZero noiseZero
              chamonixResort 2 2000)]⟩)) :=
  ⟨rfl,
   claim_C5_cache_hit mZero mZero noiseZero noiseHalf "req" "req2" ⟨[]⟩ "chamonix" 2 2000
     .netError .httpNotOk .failure .noContent _ _ rfl⟩

/-- C8 (amended): the claim's
characterization holds of the MCP client's `normalizeElevationData` — empty
input yields the no-data sentinel `null`; a non-empty input whose maximum
equals its minimum yields a same-length grid of `0.5`; otherwise each sample
maps to `(sample - min) / (max - min)`; output length always equals input
length; and `[1000, 1500, 2000]` maps to `[0, 0.5, 1]` — while the
`TopographyDataLoader` copy of `normalizeElevationData`, also named by the
claim, returns an empty grid (not a sentinel) on empty input. -/
theorem claim_C8_normalizer (e0 : ℚ) (rest : List ℚ) :
    (MCPElevationClient.normalizeElevationData [] = none) ∧
    (rest.foldl max e0 = rest.foldl min e0 →
      MCPElevationClient.normalizeElevationData (e0 :: rest) =
        some (List.replicate (e0 :: rest).length (1/2))) ∧
    (rest.foldl max e0 ≠ rest.foldl min e0 →
      MCPElevationClient.normalizeElevationData (e0 :: rest) =
        some ((e0 :: rest).map (fun e =>
          (e - rest.foldl min e0) / (rest.foldl max e0 - rest.foldl min e0)))) ∧
    (∀ (l r : List ℚ), MCPElevationClient.normalizeElevationData l = some r →
      r.length = l.length) ∧
    (MCPElevationClient.normalizeElevationData [1000, 1500, 2000] = some [0, 1/2, 1]) ∧
    (TopographyDataLoader.normalizeElevationData [] = ([] : List JSNum)) := by
  refine ⟨rfl, ?_, ?_, ?_, ?_, rfl⟩
  · intro hflat
    simp only [MCPElevationClient.normalizeElevationData]
    rw [if_pos (sub_eq_zero.mpr hflat)]
  · intro hne
    simp only [MCPElevationClient.normalizeElevationData]
    rw [if_neg (fun hc => hne (sub_eq_zero.mp hc))]
  · intro l r hlr
    cases l with
    | nil => simp [MCPElevationClient.normalizeElevationData] at hlr
    | cons f0 frest =>
        simp only [MCPElevationClient.normalizeElevationData] at hlr
        split at hlr
        · simp only [Option.some.injEq] at hlr
          rw [← hlr]
          simp
        · simp only [Option.some.injEq] at hlr
          rw [← hlr]
          simp
  · have hmap : MCPElevationClient.normalizeElevationData [1000, 1500, 2000] =
        some ([(1000:ℚ), 1500, 2000].map (fun e => (e - 1000) / (2000 - 1000))) := by
      simp only [MCPElevationClient.normalizeElevationData]
      norm_num
    rw [hmap]
    norm_num

/-- C8 (counterexample): the claim requires `normalizeElevationData` to
return the no-data sentinel — not an empty grid — on empty input, but the
`TopographyDataLoader` copy named by the claim returns an empty grid (its
`-∞` range is nonzero, so the elementwise branch maps over zero samples);
it has no sentinel value at all. -/
theorem claim_C8_counterexample :
    TopographyDataLoader.normalizeElevationData [] = ([] : List JSNum) ∧
    (TopographyDataLoader.normalizeElevationData []).length = 0 :=
  ⟨rfl, rfl⟩

/-- Witness for C8 at concrete inputs: the flat-input branch at
`[1500, 1500, 1500]` (maximum equals minimum) yields `[0.5, 0.5, 0.5]`, and
the elementwise branch at `[1000, 1500, 2000]` (maximum differs from
minimum) yields `[0, 0.5, 1]`. -/
theorem claim_C8_witness :
    (([1500, 1500] : List ℚ).foldl max 1500 = ([1500, 1500] : List ℚ).foldl min 1500 ∧
      MCPElevationClient.normalizeElevationData [1500, 1500, 1500] =
        some (List.replicate 3 (1/2))) ∧
    (([1500, 2000] : List ℚ).foldl max 1000 ≠ ([1500, 2000] : List ℚ).foldl min 1000 ∧
      MCPElevationClient.normalizeElevationData [1000, 1500, 2000] = some [0, 1/2, 1]) := by
  refine ⟨⟨by norm_num, (claim_C8_normalizer 1500 [1500, 1500]).2.1 (by norm_num)⟩,
    ⟨by norm_num, (claim_C8_normalizer 1000 [1500, 2000]).2.2.2.2.1⟩⟩

/-- C9: the claim says the cache evicts its oldest entry (FIFO) once the
configured capacity (10 entries in the design and in the repository's own
test suite) is exceeded, so its size never passes the capacity.  The code
violates this: the cache is a bare `Map` with no eviction policy, so after
inserting eleven distinct keys through the fetch path it holds all eleven
entries — exceeding the capacity — and the oldest entry is still present. -/
theorem claim_C9_cache_never_evicts :
    ((insertKeys ⟨[]⟩ elevenKeys).cache.length = 11) ∧
    ((lookupList (insertKeys ⟨[]⟩ elevenKeys).cache ("chamonix", 2, 1)).isSome = true) :=
  ⟨rfl, rfl⟩

/-- C1 (amended): for every registered location key, every resolution with
`2 ≤ resolution ≤ 1024`, and every area size `0 < areaSizeMeters ≤ 10000`,
a fetch on a fresh loader resolves (never rejects) to a grid of exactly
`resolution * resolution` samples, each a finite value in `[0,1]` — for
every remote outcome, math model and noise stream.  (At `resolution = 1`,
excluded here, the claim fails: see the counterexample.) -/
theorem claim_C1_valid_input_grid (m : MathModel) (noise : ℕ → ℚ)
    (requestId : String) (resortKey : String) (resolution : ℤ) (areaSize : ℚ)
    (g : GatewayResult) (info : InfoResult) (resort : Resort)
    (hres : lookupList TopographyDataLoader.resortCoordinates resortKey = some resort)
    (h2 : 2 ≤ resolution) (h1024 : resolution ≤ 1024)
    (ha0 : 0 < areaSize) (ha : areaSize ≤ 10000) :
    ∃ grid st2,
      TopographyDataLoader.fetchElevationData m noise requestId ⟨[]⟩ resortKey
        resolution areaSize g info = .ok (grid, st2) ∧
      grid.length = (resolution * resolution).toNat ∧
      grid.all isUnitSample = true := by
  refine ⟨TopographyDataLoader.generateSyntheticElevationData m noise resort
      resolution areaSize,
    ⟨mapSet [] (resortKey, resolution, areaSize)
      (TopographyDataLoader.generateSyntheticElevationData m noise resort
        resolution areaSize)⟩, ?_,
    generate_length m noise resort resolution areaSize,
    generate_all_unit m noise resort resolution areaSize h2⟩
  simp only [TopographyDataLoader.fetchElevationData]
  rw [show lookupList (TopographyDataLoader.TopoState.mk []).cache
      (resortKey, resolution, areaSize) = none from rfl,
    hres, mcp_fetchElevationData_eq_none]

/-- C1 (counterexample): `resolution = 1` is a valid input under the claim
(`0 < 1 ≤ 1024`), but the single generated sample is the JS value `NaN`
(from `x / (resolution - 1) = 0 / 0`), which is not a value in `[0,1]`: the
fetch resolves to `[NaN]` and even caches it. -/
theorem claim_C1_counterexample :
    (TopographyDataLoader.fetchElevationData mZero noiseZero "req" ⟨[]⟩ "chamonix" 1 2000
        .netError .failure =
      .ok ([JSNum.nan], ⟨[(("chamonix", 1, 2000), [JSNum.nan])]⟩)) ∧
    isUnitSample JSNum.nan = false := by
  constructor
  · have hg : TopographyDataLoader.generateSyntheticElevationData mZero noiseZero
        chamonixResort 1 2000 = [JSNum.nan] := by
      simp only [TopographyDataLoader.generateSyntheticElevationData]
      rw [if_neg (by norm_num : ¬(1:ℤ) ≤ 0)]
      rw [show List.range (1:ℤ).toNat = [0] from rfl]
      simp only [List.flatMap_cons, List.flatMap_nil, List.map_cons,
        List.map_nil, List.append_nil]
      rw [syntheticCell_res_one]
    calc TopographyDataLoader.fetchElevationData mZero noiseZero "req" ⟨[]⟩ "chamonix" 1
          2000 .netError .failure
        = .ok (TopographyDataLoader.generateSyntheticElevationData mZero noiseZero
            chamonixResort 1 2000,
          ⟨[(("chamonix", 1, 2000),
            TopographyDataLoader.generateSyntheticElevationData mZero noiseZero
              chamonixResort 1 2000)]⟩) := rfl
      _ = .ok ([JSNum.nan], ⟨[(("chamonix", 1, 2000), [JSNum.nan])]⟩) := by rw [hg]
  · rfl

/-- Witness for C1 at a concrete input: the hypotheses hold for
`(chamonix, 2, 2000)`, and the conclusion follows by the theorem. -/
theorem claim_C1_witness :
    (lookupList TopographyDataLoader.resortCoordinates "chamonix" = some chamonixResort ∧
      (2:ℤ) ≤ 2 ∧ (2:ℤ) ≤ 1024 ∧ (0:ℚ) < 2000 ∧ (2000:ℚ) ≤ 10000) ∧
    (∃ grid st2,
      TopographyDataLoader.fetchElevationData mZero noiseZero "req" ⟨[]⟩ "chamonix"
        2 2000 .netError .failure = .ok (grid, st2) ∧
      grid.length = ((2:ℤ) * 2).toNat ∧
      grid.all isUnitSample = true) :=
  ⟨⟨rfl, by decide, by decide, by decide, by decide⟩,
   claim_C1_valid_input_grid mZero noiseZero "req" "chamonix" 2 2000 .netError .failure
     chamonixResort rfl (by decide) (by decide) (by decide) (by decide)⟩

/-- C10: when the remote grid fetch fails (any non-content outcome) and the
metadata fetch fails too, two independent loader instances with fresh
caches, fed the same `(locationKey, resolution)` but possibly different
area sizes, request ids and noise streams, both resolve to synthetic grids
that share the deterministic radial macro-structure: the grids are
samplewise finite and at most `0.1` apart (the noise amplitude), and with
identical noise streams the grids are identical — so the result is a
deterministic function of `(locationKey, resolution)` and the noise only. -/
theorem claim_C10_fallback_deterministic (m : MathModel) (noise1 noise2 : ℕ → ℚ)
    (requestId1 requestId2 resortKey : String) (resolution : ℤ)
    (areaSize1 areaSize2 : ℚ) (g1 g2 : GatewayResult) (info1 info2 : InfoResult)
    (resort : Resort)
    (hres : lookupList TopographyDataLoader.resortCoordinates resortKey = some resort)
    (h2 : 2 ≤ resolution)
    (hb1 : ∀ n, 0 ≤ noise1 n ∧ noise1 n < 1) (hb2 : ∀ n, 0 ≤ noise2 n ∧ noise2 n < 1)
    (hg1 : ∀ p, g1 ≠ .content p) (hg2 : ∀ p, g2 ≠ .content p)
    (hi1 : info1 = .failure) (hi2 : info2 = .failure) :
    ∃ grid1 st1 grid2 st2,
      TopographyDataLoader.fetchElevationData m noise1 requestId1 ⟨[]⟩ resortKey
        resolution areaSize1 g1 info1 = .ok (grid1, st1) ∧
      TopographyDataLoader.fetchElevationData m noise2 requestId2 ⟨[]⟩ resortKey
        resolution areaSize2 g2 info2 = .ok (grid2, st2) ∧
      List.Forall₂ (fun c1 c2 => ∃ q1 q2, c1 = .fin q1 ∧ c2 = .fin q2 ∧
        |q1 - q2| ≤ 1/10) grid1 grid2 ∧
      (noise1 = noise2 → grid1 = grid2) := by
  refine ⟨TopographyDataLoader.generateSyntheticElevationData m noise1 resort
      resolution areaSize1,
    ⟨mapSet [] (resortKey, resolution, areaSize1)
      (TopographyDataLoader.generateSyntheticElevationData m noise1 resort
        resolution areaSize1)⟩,
    TopographyDataLoader.generateSyntheticElevationData m noise2 resort
      resolution areaSize2,
    ⟨mapSet [] (resortKey, resolution, areaSize2)
      (TopographyDataLoader.generateSyntheticElevationData m noise2 resort
        resolution areaSize2)⟩, ?_, ?_, ?_, ?_⟩
  · simp only [TopographyDataLoader.fetchElevationData]
    rw [show lookupList (TopographyDataLoader.TopoState.mk []).cache
        (resortKey, resolution, areaSize1) = none from rfl,
      hres, mcp_fetchElevationData_eq_none]
  · simp only [TopographyDataLoader.fetchElevationData]
    rw [show lookupList (TopographyDataLoader.TopoState.mk []).cache
        (resortKey, resolution, areaSize2) = none from rfl,
      hres, mcp_fetchElevationData_eq_none]
  · unfold TopographyDataLoader.generateSyntheticElevationData
    rw [if_neg (by omega : ¬resolution ≤ 0), if_neg (by omega : ¬resolution ≤ 0)]
    apply forall2_flatMap
    intro z hz
    apply forall2_map
    intro x hx
    exact syntheticCell_close m (TopographyDataLoader.profileForResort resort)
      resolution z x noise1 noise2 h2 hb1 hb2
  · intro hnn
    rw [hnn]
    rfl

/-- Witness for C10 at a concrete input: both hypotheses and the conclusion
instantiated at `(chamonix, 2)` with differing area sizes, request ids,
noise streams and (failing) remote outcomes. -/
theorem claim_C10_witness :
    (lookupList TopographyDataLoader.resortCoordinates "chamonix" = some chamonixResort ∧
      (2:ℤ) ≤ 2 ∧
      (∀ n, 0 ≤ noiseZero n ∧ noiseZero n < 1) ∧
      (∀ n, 0 ≤ noiseHalf n ∧ noiseHalf n < 1) ∧
      (∀ p, GatewayResult.netError ≠ .content p) ∧
      (∀ p, GatewayResult.httpNotOk ≠ .content p)) ∧
    (∃ grid1 st1 grid2 st2,
      TopographyDataLoader.fetchElevationData mZero noiseZero "req" ⟨[]⟩ "chamonix"
        2 2000 .netError .failure = .ok (grid1, st1) ∧
      TopographyDataLoader.fetchElevationData mZero noiseHalf "req2" ⟨[]⟩ "chamonix"
        2 1000 .httpNotOk .failure = .ok (grid2, st2) ∧
      List.Forall₂ (fun c1 c2 => ∃ q1 q2, c1 = .fin q1 ∧ c2 = .fin q2 ∧
        |q1 - q2| ≤ 1/10) grid1 grid2 ∧
      (noiseZero = noiseHalf → grid1 = grid2)) :=
  ⟨⟨rfl, by decide, fun n => ⟨le_refl 0, by norm_num [noiseZero]⟩,
    fun n => ⟨by norm_num [noiseHalf], by norm_num [noiseHalf]⟩,
    fun p h => GatewayResult.noConfusion h, fun p h => GatewayResult.noConfusion h⟩,
   claim_C10_fallback_deterministic mZero noiseZero noiseHalf "req" "req2" "chamonix"
     2 2000 1000 .netError .httpNotOk .failure .failure chamonixResort rfl (by decide)
     (fun n => ⟨le_refl 0, by norm_num [noiseZero]⟩)
     (fun n => ⟨by norm_num [noiseHalf], by norm_num [noiseHalf]⟩)
     (fun p h => GatewayResult.noConfusion h) (fun p h => GatewayResult.noConfusion h)
     rfl rfl⟩

/-- C6 (amended): only a successful content termination of the remote
exchange discards the progress tracking — `bridgeToHttpServer` sets the
abort flag exactly when `result.content[0]` was parsed (first and second
conjuncts) — and once the flag is set the poll loop for that request issues
no query at or after its next check (third conjunct).  After an error
termination the flag stays `false` and polling continues (see the
counterexample). -/
theorem claim_C6_abort_on_success (requestId : String) (p : ElevPayload)
    (g : GatewayResult) (info1 info2 : InfoResult)
    (pre post : ℕ → Bool) (resp : ℕ → PollResp) (k : ℕ)
    (hg : ∀ q, g ≠ .content q) (hk : ∀ j, k ≤ j → pre j = true) :
    ((MCPElevationClient.bridgeToHttpServer requestId (.content p) info1).2 = true) ∧
    ((MCPElevationClient.bridgeToHttpServer requestId g info2).2 = false) ∧
    (∀ j ∈ MCPElevationClient.pollProgress pre post resp, j < k) := by
  refine ⟨?_, ?_, pollProgress_abort_stops pre post resp k hk⟩
  · cases hp : p.elevation_data <;>
      simp [MCPElevationClient.bridgeToHttpServer, hp]
  · cases g with
    | netError => rfl
    | httpNotOk => rfl
    | rpcError msg => rfl
    | noContent => rfl
    | parseError => rfl
    | content q => exact absurd rfl (hg q)

/-- C6 (counterexample): the claim says any termination of the remote
exchange — success, error, or abort — stops further progress polls for the
request.  The code violates this for error termination: a non-ok HTTP
status makes the bridge throw and return `null` with the abort flag still
`false` (first conjunct), and a poll loop that keeps reading a clear flag
continues to issue status queries — here at iterations 1 and 2, after the
exchange has already terminated (second conjunct). -/
theorem claim_C6_counterexample :
    (MCPElevationClient.bridgeToHttpServer "req" .httpNotOk .failure = (none, false)) ∧
    (MCPElevationClient.pollProgress flagClear flagClear respRising = [0, 1, 2]) :=
  ⟨rfl, by decide⟩

/-- Witness for C6 at a concrete input: a successful content exchange sets
the flag; a non-ok status leaves it clear; and a loop whose flag reads set
from iteration 2 on issues no query numbered 2 or later. -/
theorem claim_C6_witness :
    ((∀ q, GatewayResult.httpNotOk ≠ GatewayResult.content q) ∧
      (∀ j, 2 ≤ j → flagFromTwo j = true)) ∧
    (((MCPElevationClient.bridgeToHttpServer "req" (.content payloadThree) .failure).2 =
        true) ∧
      ((MCPElevationClient.bridgeToHttpServer "req" .httpNotOk .noContent).2 = false) ∧
      (∀ j ∈ MCPElevationClient.pollProgress flagFromTwo flagFromTwo respNotOk, j < 2)) :=
  ⟨⟨fun q h => GatewayResult.noConfusion h,
    fun j hj => by simp [flagFromTwo, hj]⟩,
   claim_C6_abort_on_success "req" payloadThree .httpNotOk .failure .noContent
     flagFromTwo flagFromTwo respNotOk 2
     (fun q h => GatewayResult.noConfusion h)
     (fun j hj => by simp [flagFromTwo, hj])⟩

/-- C7: every status query of a poll loop was issued at an iteration whose
preceding abort-flag read was clear (first conjunct), so once the flag is
set — and stays set — at iteration `k`, no query numbered `k` or later is
issued: the loop resolves at its next check (second conjunct).  Setting the
abort flag is idempotent (third conjunct) and touches no other request id's
entry, so aborting a request with no active poll loop changes nothing any
loop can observe (fourth conjunct). -/
theorem claim_C7_abort_semantics (pre post : ℕ → Bool) (resp : ℕ → PollResp)
    (k : ℕ) (t : String → Bool) (requestId other : String)
    (hk : ∀ j, k ≤ j → pre j = true) (hother : other ≠ requestId) :
    (∀ j ∈ MCPElevationClient.pollProgress pre post resp, pre j = false) ∧
    (∀ j ∈ MCPElevationClient.pollProgress pre post resp, j < k) ∧
    (MCPElevationClient.setAbort (MCPElevationClient.setAbort t requestId) requestId =
      MCPElevationClient.setAbort t requestId) ∧
    (MCPElevationClient.setAbort t requestId other = t other) := by
  refine ⟨fun j hj => pollLoop_pre_false pre post resp _ _ _ _ hj,
    pollProgress_abort_stops pre post resp k hk, ?_, ?_⟩
  · funext s
    simp [MCPElevationClient.setAbort]
  · simp [MCPElevationClient.setAbort, hother]

/-- Witness for C7 at a concrete input: with the flag set from iteration 2
on and every query returning a non-ok status, the loop issues queries only
at iterations 0 and 1; setting the flag twice for request `req` equals
setting it once, and the entry of request `other` is untouched. -/
theorem claim_C7_witness :
    ((∀ j, 2 ≤ j → flagFromTwo j = true) ∧ ("other" : String) ≠ "req") ∧
    ((∀ j ∈ MCPElevationClient.pollProgress flagFromTwo flagFromTwo respNotOk,
        flagFromTwo j = false) ∧
      (∀ j ∈ MCPElevationClient.pollProgress flagFromTwo flagFromTwo respNotOk, j < 2) ∧
      (MCPElevationClient.setAbort (MCPElevationClient.setAbort flagTableClear "req")
          "req" = MCPElevationClient.setAbort flagTableClear "req") ∧
      (MCPElevationClient.setAbort flagTableClear "req" "other" =
        flagTableClear "other")) :=
  ⟨⟨fun j hj => by simp [flagFromTwo, hj], by decide⟩,
   claim_C7_abort_semantics flagFromTwo flagFromTwo respNotOk 2 flagTableClear
     "req" "other" (fun j hj => by simp [flagFromTwo, hj]) (by decide)⟩
